import Mathlib

/-!
Shallow embedding of the juztin/config Go package: an in-memory JSON
configuration store with typed accessors, guarded mutation, required
(fatal) accessors, and load/reload of the backing document.

Go dynamic values (interface value) are modelled by the inductive type
JVal.  JSON numbers decoded by encoding/json become Go float64 values,
modelled here as rationals (vfloat); Go int values written by SetInt /
SetGroupInt are modelled as vint.  A Go map[string]interface with
string keys is modelled as an association list with first-match lookup
and Go-style assignment (update the existing entry, else append).
-/

inductive JVal : Type where
  | vnull  : JVal
  | vbool  : Bool → JVal
  | vint   : Int → JVal
  | vfloat : Rat → JVal
  | vstr   : String → JVal
  | varr   : List JVal → JVal
  | vobj   : List (String × JVal) → JVal

abbrev Doc := List (String × JVal)

/-- Go map read: first entry with the given key, if any. -/
def lookup (k : String) : Doc → Option JVal
  | [] => none
  | (k', v) :: rest => if k = k' then some v else lookup k rest

/-- Go map assignment m[k] = v: overwrite the existing entry, else append. -/
def mapAssign (k : String) (v : JVal) : Doc → Doc
  | [] => [(k, v)]
  | (k', v') :: rest =>
      if k = k' then (k, v) :: rest else (k', v') :: mapAssign k v rest

/-- Go conversion int(f) from float64 truncates toward zero; on a rational
this is T-division of numerator by denominator. -/
def goTrunc (q : Rat) : Int := Int.tdiv q.num q.den

/-- colBool from config.go: present Boolean reads as itself, anything else
gives the Go zero value false with a false flag. -/
def colBool (key : String) (col : Doc) : Bool × Bool :=
  match lookup key col with
  | some (JVal.vbool b) => (b, true)
  | some _ => (false, false)
  | none => (false, false)

/-- colString from config.go. -/
def colString (key : String) (col : Doc) : String × Bool :=
  match lookup key col with
  | some (JVal.vstr s) => (s, true)
  | some _ => ("", false)
  | none => ("", false)

/-- colInt from config.go: a Go int reads as itself, a float64 truncates
toward zero, anything else yields (-1, false). -/
def colInt (key : String) (col : Doc) : Int × Bool :=
  match lookup key col with
  | some (JVal.vint n) => (n, true)
  | some (JVal.vfloat q) => (goTrunc q, true)
  | some _ => (-1, false)
  | none => (-1, false)

/-- colFloat64 from config.go: a float64 reads as itself, a Go int converts
exactly, anything else yields (-1.0, false). -/
def colFloat64 (key : String) (col : Doc) : Rat × Bool :=
  match lookup key col with
  | some (JVal.vfloat q) => (q, true)
  | some (JVal.vint n) => ((n : Rat), true)
  | some _ => (-1, false)
  | none => (-1, false)

/-- colVal from config.go: any present value (null included) reads with a
true flag. -/
def colVal (key : String) (col : Doc) : Option JVal × Bool :=
  match lookup key col with
  | some v => (some v, true)
  | none => (none, false)

/- Inside the config and required namespaces the accessor names shadow the
Lean builtin types, so the builtin types get aliases used in signatures. -/
abbrev GoBool := Bool
abbrev GoString := String
abbrev GoInt := Int

/-- Root accessor Bool(key); the package-level cfg document is passed
explicitly. -/
def config.Bool (key : GoString) (cfg : Doc) : GoBool × GoBool :=
  colBool key cfg

def config.String (key : GoString) (cfg : Doc) : GoString × GoBool :=
  colString key cfg

def config.Int (key : GoString) (cfg : Doc) : GoInt × GoBool :=
  colInt key cfg

def config.Float64 (key : GoString) (cfg : Doc) : Rat × GoBool :=
  colFloat64 key cfg

def config.Val (key : GoString) (cfg : Doc) : Option JVal × GoBool :=
  colVal key cfg

def config.GroupBool (group key : GoString) (cfg : Doc) : GoBool × GoBool :=
  match lookup group cfg with
  | some (JVal.vobj col) => colBool key col
  | some _ => (false, false)
  | none => (false, false)

def config.GroupString (group key : GoString) (cfg : Doc) : GoString × GoBool :=
  match lookup group cfg with
  | some (JVal.vobj col) => colString key col
  | some _ => ("", false)
  | none => ("", false)

def config.GroupInt (group key : GoString) (cfg : Doc) : GoInt × GoBool :=
  match lookup group cfg with
  | some (JVal.vobj col) => colInt key col
  | some _ => (0, false)
  | none => (0, false)

def config.GroupFloat64 (group key : GoString) (cfg : Doc) : Rat × GoBool :=
  match lookup group cfg with
  | some (JVal.vobj col) => colFloat64 key col
  | some _ => (0, false)
  | none => (0, false)

def config.GroupVal (group key : GoString) (cfg : Doc) : Option JVal × GoBool :=
  match lookup group cfg with
  | some (JVal.vobj col) => colVal key col
  | some _ => (none, false)
  | none => (none, false)

/-- SetInt from config.go: write only when Int(key) already reads with a
true flag. -/
def config.SetInt (key : GoString) (val : GoInt) (cfg : Doc) : Doc :=
  if (config.Int key cfg).2 then mapAssign key (JVal.vint val) cfg else cfg

def config.SetFloat64 (key : GoString) (val : Rat) (cfg : Doc) : Doc :=
  if (config.Float64 key cfg).2 then mapAssign key (JVal.vfloat val) cfg
  else cfg

def config.SetBool (key : GoString) (val : GoBool) (cfg : Doc) : Doc :=
  if (config.Bool key cfg).2 then mapAssign key (JVal.vbool val) cfg else cfg

def config.SetString (key val : GoString) (cfg : Doc) : Doc :=
  if (config.String key cfg).2 then mapAssign key (JVal.vstr val) cfg else cfg

/-- The Go statement cfg[group].(map[string]interface)[key] = val mutates
the nested map in place; functionally this replaces the group entry with
its updated mapping.  Each SetGroup* call runs it only under a guard that
ensures the group entry is a mapping, so the fallback arm is unreachable
(in Go a failed type assertion there would panic, but the guard prevents
reaching it). -/
def setInGroup (group key : GoString) (w : JVal) (cfg : Doc) : Doc :=
  match lookup group cfg with
  | some (JVal.vobj col) => mapAssign group (JVal.vobj (mapAssign key w col)) cfg
  | _ => cfg

/-- SetGroupInt from config.go: guarded by GroupInt. -/
def config.SetGroupInt (group key : GoString) (val : GoInt) (cfg : Doc) :
    Doc :=
  if (config.GroupInt group key cfg).2 then
    setInGroup group key (JVal.vint val) cfg
  else cfg

def config.SetGroupFloat64 (group key : GoString) (val : Rat) (cfg : Doc) :
    Doc :=
  if (config.GroupFloat64 group key cfg).2 then
    setInGroup group key (JVal.vfloat val) cfg
  else cfg

def config.SetGroupBool (group key : GoString) (val : GoBool) (cfg : Doc) :
    Doc :=
  if (config.GroupBool group key cfg).2 then
    setInGroup group key (JVal.vbool val) cfg
  else cfg

def config.SetGroupString (group key val : GoString) (cfg : Doc) : Doc :=
  if (config.GroupString group key cfg).2 then
    setInGroup group key (JVal.vstr val) cfg
  else cfg

/-- Package state of config.go: the loaded flag and the cfg document. -/
structure CState where
  loaded : Bool
  cfg : Doc

/-- Environment seen by Load: the combined outcome of getConfig and of
json.Unmarshal on the bytes it returned.  noFile covers a getConfig error,
badJson an Unmarshal error, parsed v a successful parse of the bytes. -/
inductive FileRead where
  | noFile : FileRead
  | badJson : FileRead
  | parsed : JVal → FileRead

/-- Outcome of Load / Reload: an ordinary error return carries the package
state left behind; panicked models the unchecked type assertion
j.(map[string]interface) failing at runtime. -/
inductive LoadResult where
  | ok : CState → LoadResult
  | err : CState → LoadResult
  | panicked : LoadResult

def LoadResult.state (s : CState) : LoadResult → CState
  | .ok s' => s'
  | .err s' => s'
  | .panicked => s

/-- Load from config.go lines 277-296: no-op when already loaded; errors
from getConfig and Unmarshal return without touching cfg; a parsed
non-object panics at the type assertion; a parsed object replaces cfg. -/
def config.Load (f : FileRead) (s : CState) : LoadResult :=
  if s.loaded then .ok s
  else
    match f with
    | .noFile => .err s
    | .badJson => .err s
    | .parsed (JVal.vobj m) => .ok ⟨true, m⟩
    | .parsed _ => .panicked

/-- Reload from config.go lines 298-301: clear the loaded flag, then Load. -/
def config.Reload (f : FileRead) (s : CState) : LoadResult :=
  config.Load f ⟨false, s.cfg⟩

/-- Outcome of ReadFrom in the Config-struct variant: err models the
Unmarshal error return, panicked the unchecked type assertion on a
non-object document. -/
inductive GoResult (α : Type) where
  | ok : α → GoResult α
  | err : GoResult α
  | panicked : GoResult α

/-- ReadFrom of the Config-struct variant, over the Unmarshal outcome of
the input bytes (none models invalid JSON). -/
def ReadFrom (parsed : Option JVal) : GoResult Doc :=
  match parsed with
  | none => .err
  | some (JVal.vobj m) => .ok m
  | some _ => .panicked

/-- A single-quote character as a string, written via its code point. -/
def sQuote : GoString := String.singleton (Char.ofNat 39)

/-- Outcome of a required accessor: the value, or a fatal termination of
the process carrying the emitted message (panic in config.go, log.Fatalf
in the Config-struct variant). -/
inductive ReqResult (α : Type) where
  | ok : α → ReqResult α
  | fatal : GoString → ReqResult α

def required.Bool (key : GoString) (cfg : Doc) : ReqResult GoBool :=
  if (config.Bool key cfg).2 then .ok (config.Bool key cfg).1
  else .fatal ("failed to retrieve " ++ sQuote ++ key ++ sQuote ++ " bool from config")

def required.String (key : GoString) (cfg : Doc) : ReqResult GoString :=
  if (config.String key cfg).2 then .ok (config.String key cfg).1
  else .fatal ("failed to retrieve " ++ sQuote ++ key ++ sQuote ++
    " string from config")

def required.Int (key : GoString) (cfg : Doc) : ReqResult GoInt :=
  if (config.Int key cfg).2 then .ok (config.Int key cfg).1
  else .fatal ("failed to retrieve " ++ sQuote ++ key ++ sQuote ++ " int from config")

def required.Float64 (key : GoString) (cfg : Doc) : ReqResult Rat :=
  if (config.Float64 key cfg).2 then .ok (config.Float64 key cfg).1
  else .fatal ("failed to retrieve " ++ sQuote ++ key ++ sQuote ++
    " float64 from config")

def required.Val (key : GoString) (cfg : Doc) : ReqResult (Option JVal) :=
  if (config.Val key cfg).2 then .ok (config.Val key cfg).1
  else .fatal ("failed to retrieve " ++ sQuote ++ key ++ sQuote ++
    " value from config")

/-- The group message of the required struct in config.go names only the
key, not the group. -/
def required.GroupBool (group key : GoString) (cfg : Doc) : ReqResult GoBool :=
  if (config.GroupBool group key cfg).2 then
    .ok (config.GroupBool group key cfg).1
  else .fatal ("failed to retrieve " ++ sQuote ++ key ++ sQuote ++
    " group bool from config")

def required.GroupString (group key : GoString) (cfg : Doc) :
    ReqResult GoString :=
  if (config.GroupString group key cfg).2 then
    .ok (config.GroupString group key cfg).1
  else .fatal ("failed to retrieve " ++ sQuote ++ key ++ sQuote ++
    " group string from config")

def required.GroupInt (group key : GoString) (cfg : Doc) : ReqResult GoInt :=
  if (config.GroupInt group key cfg).2 then
    .ok (config.GroupInt group key cfg).1
  else .fatal ("failed to retrieve " ++ sQuote ++ key ++ sQuote ++
    " group int from config")

/-- The source message here says group int, not group float64. -/
def required.GroupFloat64 (group key : GoString) (cfg : Doc) : ReqResult Rat :=
  if (config.GroupFloat64 group key cfg).2 then
    .ok (config.GroupFloat64 group key cfg).1
  else .fatal ("failed to retrieve " ++ sQuote ++ key ++ sQuote ++
    " group int from config")

def required.GroupVal (group key : GoString) (cfg : Doc) :
    ReqResult (Option JVal) :=
  if (config.GroupVal group key cfg).2 then
    .ok (config.GroupVal group key cfg).1
  else .fatal ("failed to retrieve " ++ sQuote ++ key ++ sQuote ++
    " group value from config")

/-- The Config struct of the mutex variant; the mutex itself plays no role
in the sequential semantics modelled here. -/
structure Config where
  m : Doc

/-- The keys helper: iteration order of a Go map is unspecified; the model
uses the association-list order. -/
def keys (m : Doc) : List GoString := m.map Prod.fst

/-- Keys method: the source body reads the package-level default instance
cfg, not the receiver c, so the model takes that global as a parameter and
the receiver is ignored exactly as in the source. -/
def Config.Keys (cfg : Config) (c : Config) : List GoString := keys cfg.m

def Config.GroupKeys (c : Config) (group : GoString) : List GoString :=
  match lookup group c.m with
  | some (JVal.vobj col) => keys col
  | some _ => []
  | none => []

/-- SetConfig replaces the whole document of the package-level instance. -/
def SetConfig (m : Doc) (cfg : Config) : Config := ⟨m⟩

def Config.Bool (c : Config) (key : GoString) : GoBool × GoBool :=
  colBool key c.m

def Config.String (c : Config) (key : GoString) : GoString × GoBool :=
  colString key c.m

def Config.Int (c : Config) (key : GoString) : GoInt × GoBool :=
  colInt key c.m

def Config.Float64 (c : Config) (key : GoString) : Rat × GoBool :=
  colFloat64 key c.m

def Config.Val (c : Config) (key : GoString) : Option JVal × GoBool :=
  colVal key c.m

/-- The group accessors of the Config-struct variant have the same bodies
as the package-level ones of config.go, applied to the receiver document. -/
def Config.GroupBool (c : Config) (group key : GoString) : GoBool × GoBool :=
  config.GroupBool group key c.m

def Config.GroupString (c : Config) (group key : GoString) :
    GoString × GoBool :=
  config.GroupString group key c.m

def Config.GroupInt (c : Config) (group key : GoString) : GoInt × GoBool :=
  config.GroupInt group key c.m

def Config.GroupFloat64 (c : Config) (group key : GoString) : Rat × GoBool :=
  config.GroupFloat64 group key c.m

def Config.GroupVal (c : Config) (group key : GoString) :
    Option JVal × GoBool :=
  config.GroupVal group key c.m

def Config.RequiredBool (c : Config) (key : GoString) : ReqResult GoBool :=
  if (c.Bool key).2 then .ok (c.Bool key).1
  else .fatal ("failed to retrieve " ++ sQuote ++ key ++ sQuote ++ " bool from config")

def Config.RequiredString (c : Config) (key : GoString) : ReqResult GoString :=
  if (c.String key).2 then .ok (c.String key).1
  else .fatal ("failed to retrieve " ++ sQuote ++ key ++ sQuote ++
    " string from config")

def Config.RequiredInt (c : Config) (key : GoString) : ReqResult GoInt :=
  if (c.Int key).2 then .ok (c.Int key).1
  else .fatal ("failed to retrieve " ++ sQuote ++ key ++ sQuote ++ " int from config")

def Config.RequiredFloat64 (c : Config) (key : GoString) : ReqResult Rat :=
  if (c.Float64 key).2 then .ok (c.Float64 key).1
  else .fatal ("failed to retrieve " ++ sQuote ++ key ++ sQuote ++
    " float64 from config")

def Config.RequiredVal (c : Config) (key : GoString) :
    ReqResult (Option JVal) :=
  if (c.Val key).2 then .ok (c.Val key).1
  else .fatal ("failed to retrieve " ++ sQuote ++ key ++ sQuote ++
    " value from config")

/-- The group messages of this variant name the group and the key. -/
def Config.RequiredGroupBool (c : Config) (group key : GoString) :
    ReqResult GoBool :=
  if (c.GroupBool group key).2 then .ok (c.GroupBool group key).1
  else .fatal ("failed to retrieve " ++ sQuote ++ group ++ sQuote ++ "." ++ sQuote ++
    key ++ sQuote ++ " group bool from config")

def Config.RequiredGroupString (c : Config) (group key : GoString) :
    ReqResult GoString :=
  if (c.GroupString group key).2 then .ok (c.GroupString group key).1
  else .fatal ("failed to retrieve " ++ sQuote ++ group ++ sQuote ++ "." ++ sQuote ++
    key ++ sQuote ++ " group string from config")

def Config.RequiredGroupInt (c : Config) (group key : GoString) :
    ReqResult GoInt :=
  if (c.GroupInt group key).2 then .ok (c.GroupInt group key).1
  else .fatal ("failed to retrieve " ++ sQuote ++ group ++ sQuote ++ "." ++ sQuote ++
    key ++ sQuote ++ " group int from config")

/-- The source message here says group int, not group float64. -/
def Config.RequiredGroupFloat64 (c : Config) (group key : GoString) :
    ReqResult Rat :=
  if (c.GroupFloat64 group key).2 then .ok (c.GroupFloat64 group key).1
  else .fatal ("failed to retrieve " ++ sQuote ++ group ++ sQuote ++ "." ++ sQuote ++
    key ++ sQuote ++ " group int from config")

def Config.RequiredGroupVal (c : Config) (group key : GoString) :
    ReqResult (Option JVal) :=
  if (c.GroupVal group key).2 then .ok (c.GroupVal group key).1
  else .fatal ("failed to retrieve " ++ sQuote ++ group ++ sQuote ++ "." ++ sQuote ++
    key ++ sQuote ++ " group value from config")

/-- The rational 37/10, built with an explicit reduced representation so
that witnesses evaluate by kernel reduction. -/
def ratThreePointSeven : Rat := ⟨37, 10, by decide, by decide⟩

/-- Readability of a present raw value by the four typed readers: the
found flags of colInt, colFloat64, colBool, colString in that order. -/
def tyFlags : JVal → Bool × Bool × Bool × Bool
  | JVal.vint _ => (true, true, false, false)
  | JVal.vfloat _ => (true, true, false, false)
  | JVal.vbool _ => (false, false, true, false)
  | JVal.vstr _ => (false, false, false, true)
  | JVal.vnull => (false, false, false, false)
  | JVal.varr _ => (false, false, false, false)
  | JVal.vobj _ => (false, false, false, false)

/-- The raw value stored inside a group, when the group exists and is a
mapping. -/
def groupRead (g k : GoString) (cfg : Doc) : Option JVal :=
  match lookup g cfg with
  | some (JVal.vobj col) => lookup k col
  | _ => none

/-- The four typed accessor flags at a root key. -/
def rootFlags (k : GoString) (cfg : Doc) : Bool × Bool × Bool × Bool :=
  ((config.Int k cfg).2, (config.Float64 k cfg).2,
   (config.Bool k cfg).2, (config.String k cfg).2)

/-- The four typed accessor flags at a group location. -/
def groupFlags (g k : GoString) (cfg : Doc) : Bool × Bool × Bool × Bool :=
  ((config.GroupInt g k cfg).2, (config.GroupFloat64 g k cfg).2,
   (config.GroupBool g k cfg).2, (config.GroupString g k cfg).2)

/-- The eight typed mutations of config.go, with their arguments. -/
inductive Mut where
  | mInt : GoString → GoInt → Mut
  | mFloat64 : GoString → Rat → Mut
  | mBool : GoString → GoBool → Mut
  | mString : GoString → GoString → Mut
  | mGroupInt : GoString → GoString → GoInt → Mut
  | mGroupFloat64 : GoString → GoString → Rat → Mut
  | mGroupBool : GoString → GoString → GoBool → Mut
  | mGroupString : GoString → GoString → GoString → Mut

/-- Run the corresponding Set function of config.go. -/
def Mut.apply : Mut → Doc → Doc
  | .mInt k v, cfg => config.SetInt k v cfg
  | .mFloat64 k v, cfg => config.SetFloat64 k v cfg
  | .mBool k v, cfg => config.SetBool k v cfg
  | .mString k v, cfg => config.SetString k v cfg
  | .mGroupInt g k v, cfg => config.SetGroupInt g k v cfg
  | .mGroupFloat64 g k v, cfg => config.SetGroupFloat64 g k v cfg
  | .mGroupBool g k v, cfg => config.SetGroupBool g k v cfg
  | .mGroupString g k v, cfg => config.SetGroupString g k v cfg

/-- The found flag of the plain accessor of the requested type at the
target location: exactly the guard each Set function checks. -/
def Mut.guard : Mut → Doc → Bool
  | .mInt k _, cfg => (config.Int k cfg).2
  | .mFloat64 k _, cfg => (config.Float64 k cfg).2
  | .mBool k _, cfg => (config.Bool k cfg).2
  | .mString k _, cfg => (config.String k cfg).2
  | .mGroupInt g k _, cfg => (config.GroupInt g k cfg).2
  | .mGroupFloat64 g k _, cfg => (config.GroupFloat64 g k cfg).2
  | .mGroupBool g k _, cfg => (config.GroupBool g k cfg).2
  | .mGroupString g k _, cfg => (config.GroupString g k cfg).2

/-- The raw value the mutation would write. -/
def Mut.newVal : Mut → JVal
  | .mInt _ v => JVal.vint v
  | .mFloat64 _ v => JVal.vfloat v
  | .mBool _ v => JVal.vbool v
  | .mString _ v => JVal.vstr v
  | .mGroupInt _ _ v => JVal.vint v
  | .mGroupFloat64 _ _ v => JVal.vfloat v
  | .mGroupBool _ _ v => JVal.vbool v
  | .mGroupString _ _ v => JVal.vstr v

/-- The raw value currently stored at the target location. -/
def Mut.read : Mut → Doc → Option JVal
  | .mInt k _, cfg => lookup k cfg
  | .mFloat64 k _, cfg => lookup k cfg
  | .mBool k _, cfg => lookup k cfg
  | .mString k _, cfg => lookup k cfg
  | .mGroupInt g k _, cfg => groupRead g k cfg
  | .mGroupFloat64 g k _, cfg => groupRead g k cfg
  | .mGroupBool g k _, cfg => groupRead g k cfg
  | .mGroupString g k _, cfg => groupRead g k cfg

/-- The root key the mutation touches: the key itself for root mutations,
the group name for group mutations. -/
def Mut.rootKey : Mut → GoString
  | .mInt k _ => k
  | .mFloat64 k _ => k
  | .mBool k _ => k
  | .mString k _ => k
  | .mGroupInt g _ _ => g
  | .mGroupFloat64 g _ _ => g
  | .mGroupBool g _ _ => g
  | .mGroupString g _ _ => g

/-- A group-level location the mutation does not target. -/
def Mut.misses : Mut → GoString → GoString → Prop
  | .mGroupInt g k _, g', k' => g' ≠ g ∨ k' ≠ k
  | .mGroupFloat64 g k _, g', k' => g' ≠ g ∨ k' ≠ k
  | .mGroupBool g k _, g', k' => g' ≠ g ∨ k' ≠ k
  | .mGroupString g k _, g', k' => g' ≠ g ∨ k' ≠ k
  | _, _, _ => True

/-- The four typed accessor flags at the mutation target. -/
def Mut.flags : Mut → Doc → Bool × Bool × Bool × Bool
  | .mInt k _, cfg => rootFlags k cfg
  | .mFloat64 k _, cfg => rootFlags k cfg
  | .mBool k _, cfg => rootFlags k cfg
  | .mString k _, cfg => rootFlags k cfg
  | .mGroupInt g k _, cfg => groupFlags g k cfg
  | .mGroupFloat64 g k _, cfg => groupFlags g k cfg
  | .mGroupBool g k _, cfg => groupFlags g k cfg
  | .mGroupString g k _, cfg => groupFlags g k cfg

theorem lookup_mapAssign_self (k : GoString) (v : JVal) (m : Doc) :
    lookup k (mapAssign k v m) = some v := by
  induction m with
  | nil => simp [mapAssign, lookup]
  | cons a rest ih =>
    obtain ⟨k', v'⟩ := a
    by_cases h : k = k'
    · simp [mapAssign, h, lookup]
    · simp [mapAssign, h, lookup, ih]

theorem lookup_mapAssign_ne (k k' : GoString) (v : JVal) (m : Doc)
    (h : k' ≠ k) : lookup k' (mapAssign k v m) = lookup k' m := by
  induction m with
  | nil => simp [mapAssign, lookup, h]
  | cons a rest ih =>
    obtain ⟨a1, a2⟩ := a
    by_cases hk : k = a1
    · subst hk
      simp [mapAssign, lookup, h]
    · by_cases hk' : k' = a1
      · simp [mapAssign, hk, lookup, hk']
      · simp [mapAssign, hk, lookup, hk', ih]

theorem keys_mapAssign (k : GoString) (v : JVal) (m : Doc)
    (h : (lookup k m).isSome) : keys (mapAssign k v m) = keys m := by
  induction m with
  | nil => simp [lookup] at h
  | cons a rest ih =>
    obtain ⟨a1, a2⟩ := a
    by_cases hk : k = a1
    · simp [mapAssign, hk, keys]
    · have h' : (lookup k rest).isSome := by
        simpa [lookup, hk] using h
      simpa [mapAssign, hk, keys] using ih h'

theorem rootFlags_lookup (k : GoString) (cfg : Doc) (v : JVal)
    (h : lookup k cfg = some v) : rootFlags k cfg = tyFlags v := by
  cases v <;>
    simp [rootFlags, config.Int, config.Float64, config.Bool, config.String,
      colInt, colFloat64, colBool, colString, h, tyFlags]

theorem groupFlags_obj (g k : GoString) (cfg : Doc) (col : Doc)
    (h : lookup g cfg = some (JVal.vobj col)) :
    groupFlags g k cfg = rootFlags k col := by
  simp [groupFlags, rootFlags, config.GroupInt, config.GroupFloat64,
    config.GroupBool, config.GroupString, config.Int, config.Float64,
    config.Bool, config.String, h]

theorem groupVal_of_nonobj (g k : GoString) (cfg : Doc) (v : JVal)
    (h : lookup g cfg = some v) (hv : ∀ col, v ≠ JVal.vobj col) :
    config.GroupVal g k cfg = (none, false) := by
  cases v <;> simp [config.GroupVal, h]
  exact absurd rfl (hv _)

theorem colBool_ok_shape (k : GoString) (m : Doc)
    (h : (colBool k m).2 = true) :
    ∃ v, lookup k m = some v ∧ tyFlags v = tyFlags (JVal.vbool true) ∧
      ∀ col, v ≠ JVal.vobj col := by
  cases hl : lookup k m with
  | none => simp [colBool, hl] at h
  | some v =>
    cases v with
    | vbool b => exact ⟨JVal.vbool b, rfl, rfl, fun col hc => JVal.noConfusion hc⟩
    | vnull => simp [colBool, hl] at h
    | vint n => simp [colBool, hl] at h
    | vfloat q => simp [colBool, hl] at h
    | vstr s => simp [colBool, hl] at h
    | varr a => simp [colBool, hl] at h
    | vobj o => simp [colBool, hl] at h

theorem colString_ok_shape (k : GoString) (m : Doc)
    (h : (colString k m).2 = true) :
    ∃ v, lookup k m = some v ∧ tyFlags v = tyFlags (JVal.vstr "") ∧
      ∀ col, v ≠ JVal.vobj col := by
  cases hl : lookup k m with
  | none => simp [colString, hl] at h
  | some v =>
    cases v with
    | vstr s => exact ⟨JVal.vstr s, rfl, rfl, fun col hc => JVal.noConfusion hc⟩
    | vnull => simp [colString, hl] at h
    | vint n => simp [colString, hl] at h
    | vfloat q => simp [colString, hl] at h
    | vbool b => simp [colString, hl] at h
    | varr a => simp [colString, hl] at h
    | vobj o => simp [colString, hl] at h

theorem colInt_ok_shape (k : GoString) (m : Doc)
    (h : (colInt k m).2 = true) :
    ∃ v, lookup k m = some v ∧ tyFlags v = tyFlags (JVal.vint 0) ∧
      ∀ col, v ≠ JVal.vobj col := by
  cases hl : lookup k m with
  | none => simp [colInt, hl] at h
  | some v =>
    cases v with
    | vint n => exact ⟨JVal.vint n, rfl, rfl, fun col hc => JVal.noConfusion hc⟩
    | vfloat q => exact ⟨JVal.vfloat q, rfl, rfl, fun col hc => JVal.noConfusion hc⟩
    | vnull => simp [colInt, hl] at h
    | vbool b => simp [colInt, hl] at h
    | vstr s => simp [colInt, hl] at h
    | varr a => simp [colInt, hl] at h
    | vobj o => simp [colInt, hl] at h

theorem colFloat64_ok_shape (k : GoString) (m : Doc)
    (h : (colFloat64 k m).2 = true) :
    ∃ v, lookup k m = some v ∧ tyFlags v = tyFlags (JVal.vint 0) ∧
      ∀ col, v ≠ JVal.vobj col := by
  cases hl : lookup k m with
  | none => simp [colFloat64, hl] at h
  | some v =>
    cases v with
    | vint n => exact ⟨JVal.vint n, rfl, rfl, fun col hc => JVal.noConfusion hc⟩
    | vfloat q => exact ⟨JVal.vfloat q, rfl, rfl, fun col hc => JVal.noConfusion hc⟩
    | vnull => simp [colFloat64, hl] at h
    | vbool b => simp [colFloat64, hl] at h
    | vstr s => simp [colFloat64, hl] at h
    | varr a => simp [colFloat64, hl] at h
    | vobj o => simp [colFloat64, hl] at h

theorem rootSetFull (k : GoString) (w : JVal) (cfg d : Doc) (b : Bool)
    (hd : d = if b then mapAssign k w cfg else cfg)
    (hobjw : ∀ col, w ≠ JVal.vobj col)
    (hpres : b = true → ∃ v, lookup k cfg = some v ∧ tyFlags v = tyFlags w ∧
      ∀ col, v ≠ JVal.vobj col) :
    (b = false → d = cfg) ∧
    (b = true → lookup k d = some w) ∧
    keys d = keys cfg ∧
    (∀ k', k' ≠ k → lookup k' d = lookup k' cfg) ∧
    (∀ g' col, lookup g' cfg = some (JVal.vobj col) →
      ∃ col2, lookup g' d = some (JVal.vobj col2) ∧ keys col2 = keys col) ∧
    (∀ g' k'', config.GroupVal g' k'' d = config.GroupVal g' k'' cfg) ∧
    rootFlags k d = rootFlags k cfg := by
  cases b with
  | false =>
    simp only [if_neg Bool.false_ne_true, Bool.false_eq_true, if_false] at hd
    subst hd
    exact ⟨fun _ => rfl, fun h => by simp at h, rfl, fun _ _ => rfl,
      fun g' col h => ⟨col, h, rfl⟩, fun _ _ => rfl, rfl⟩
  | true =>
    obtain ⟨v, hv, hty, hvobj⟩ := hpres rfl
    simp only [if_pos] at hd
    subst hd
    have hself := lookup_mapAssign_self k w cfg
    refine ⟨fun h => by simp at h, fun _ => hself, ?_, ?_, ?_, ?_, ?_⟩
    · exact keys_mapAssign k w cfg (by rw [hv]; rfl)
    · intro k' h
      exact lookup_mapAssign_ne k k' w cfg h
    · intro g' col h
      by_cases hg : g' = k
      · subst hg
        rw [hv] at h
        exact absurd (Option.some.inj h) (hvobj col)
      · exact ⟨col, by rw [lookup_mapAssign_ne k g' w cfg hg, h], rfl⟩
    · intro g' k''
      by_cases hg : g' = k
      · subst hg
        rw [groupVal_of_nonobj g' k'' _ w hself hobjw,
          groupVal_of_nonobj g' k'' cfg v hv hvobj]
      · have hne := lookup_mapAssign_ne k g' w cfg hg
        simp [config.GroupVal, hne]
    · rw [rootFlags_lookup k _ w hself, rootFlags_lookup k cfg v hv, hty]

theorem groupSetFull (g k : GoString) (w : JVal) (cfg d : Doc) (b : Bool)
    (hd : d = if b then setInGroup g k w cfg else cfg)
    (hpres : b = true → ∃ col v, lookup g cfg = some (JVal.vobj col) ∧
      lookup k col = some v ∧ tyFlags v = tyFlags w) :
    (b = false → d = cfg) ∧
    (b = true → groupRead g k d = some w) ∧
    keys d = keys cfg ∧
    (∀ k', k' ≠ g → lookup k' d = lookup k' cfg) ∧
    (∀ g' col, lookup g' cfg = some (JVal.vobj col) →
      ∃ col2, lookup g' d = some (JVal.vobj col2) ∧ keys col2 = keys col) ∧
    (∀ g' k', g' ≠ g ∨ k' ≠ k →
      config.GroupVal g' k' d = config.GroupVal g' k' cfg) ∧
    groupFlags g k d = groupFlags g k cfg := by
  cases b with
  | false =>
    simp only [Bool.false_eq_true, if_false] at hd
    subst hd
    exact ⟨fun _ => rfl, fun h => by simp at h, rfl, fun _ _ => rfl,
      fun g' col h => ⟨col, h, rfl⟩, fun _ _ _ => rfl, rfl⟩
  | true =>
    obtain ⟨col, v, hg, hk, hty⟩ := hpres rfl
    simp only [if_pos] at hd
    have hset : setInGroup g k w cfg =
        mapAssign g (JVal.vobj (mapAssign k w col)) cfg := by
      simp [setInGroup, hg]
    rw [hset] at hd
    subst hd
    have hself := lookup_mapAssign_self g (JVal.vobj (mapAssign k w col)) cfg
    have hinner := lookup_mapAssign_self k w col
    refine ⟨fun h => by simp at h, ?_, ?_, ?_, ?_, ?_, ?_⟩
    · intro _
      simp [groupRead, hself, hinner]
    · exact keys_mapAssign g _ cfg (by rw [hg]; rfl)
    · intro k' h
      exact lookup_mapAssign_ne g k' _ cfg h
    · intro g' col' h
      by_cases hgg : g' = g
      · subst hgg
        rw [hg] at h
        obtain rfl : col = col' := JVal.vobj.inj (Option.some.inj h)
        exact ⟨mapAssign k w col, hself,
          keys_mapAssign k w col (by rw [hk]; rfl)⟩
      · exact ⟨col', by rw [lookup_mapAssign_ne g g' _ cfg hgg, h], rfl⟩
    · intro g' k' hmiss
      by_cases hgg : g' = g
      · subst hgg
        have hk' : k' ≠ k := by
          rcases hmiss with h | h
          · exact absurd rfl h
          · exact h
        simp [config.GroupVal, hself, hg, colVal,
          lookup_mapAssign_ne k k' w col hk']
      · have hne := lookup_mapAssign_ne g g'
          (JVal.vobj (mapAssign k w col)) cfg hgg
        simp [config.GroupVal, hne]
    · rw [groupFlags_obj g k _ (mapAssign k w col) hself,
        groupFlags_obj g k cfg col hg,
        rootFlags_lookup k _ w hinner, rootFlags_lookup k col v hk, hty]

theorem groupBool_ok_shape (g k : GoString) (cfg : Doc)
    (h : (config.GroupBool g k cfg).2 = true) :
    ∃ col v, lookup g cfg = some (JVal.vobj col) ∧ lookup k col = some v ∧
      tyFlags v = tyFlags (JVal.vbool true) := by
  cases hg : lookup g cfg with
  | none => simp [config.GroupBool, hg] at h
  | some gv =>
    cases gv with
    | vobj col =>
      have h2 : (colBool k col).2 = true := by
        simpa [config.GroupBool, hg] using h
      obtain ⟨v, hv, hty, _⟩ := colBool_ok_shape k col h2
      exact ⟨col, v, rfl, hv, hty⟩
    | vnull => simp [config.GroupBool, hg] at h
    | vbool b => simp [config.GroupBool, hg] at h
    | vint n => simp [config.GroupBool, hg] at h
    | vfloat q => simp [config.GroupBool, hg] at h
    | vstr s => simp [config.GroupBool, hg] at h
    | varr a => simp [config.GroupBool, hg] at h

theorem groupString_ok_shape (g k : GoString) (cfg : Doc)
    (h : (config.GroupString g k cfg).2 = true) :
    ∃ col v, lookup g cfg = some (JVal.vobj col) ∧ lookup k col = some v ∧
      tyFlags v = tyFlags (JVal.vstr "") := by
  cases hg : lookup g cfg with
  | none => simp [config.GroupString, hg] at h
  | some gv =>
    cases gv with
    | vobj col =>
      have h2 : (colString k col).2 = true := by
        simpa [config.GroupString, hg] using h
      obtain ⟨v, hv, hty, _⟩ := colString_ok_shape k col h2
      exact ⟨col, v, rfl, hv, hty⟩
    | vnull => simp [config.GroupString, hg] at h
    | vbool b => simp [config.GroupString, hg] at h
    | vint n => simp [config.GroupString, hg] at h
    | vfloat q => simp [config.GroupString, hg] at h
    | vstr s => simp [config.GroupString, hg] at h
    | varr a => simp [config.GroupString, hg] at h

theorem groupInt_ok_shape (g k : GoString) (cfg : Doc)
    (h : (config.GroupInt g k cfg).2 = true) :
    ∃ col v, lookup g cfg = some (JVal.vobj col) ∧ lookup k col = some v ∧
      tyFlags v = tyFlags (JVal.vint 0) := by
  cases hg : lookup g cfg with
  | none => simp [config.GroupInt, hg] at h
  | some gv =>
    cases gv with
    | vobj col =>
      have h2 : (colInt k col).2 = true := by
        simpa [config.GroupInt, hg] using h
      obtain ⟨v, hv, hty, _⟩ := colInt_ok_shape k col h2
      exact ⟨col, v, rfl, hv, hty⟩
    | vnull => simp [config.GroupInt, hg] at h
    | vbool b => simp [config.GroupInt, hg] at h
    | vint n => simp [config.GroupInt, hg] at h
    | vfloat q => simp [config.GroupInt, hg] at h
    | vstr s => simp [config.GroupInt, hg] at h
    | varr a => simp [config.GroupInt, hg] at h

theorem groupFloat64_ok_shape (g k : GoString) (cfg : Doc)
    (h : (config.GroupFloat64 g k cfg).2 = true) :
    ∃ col v, lookup g cfg = some (JVal.vobj col) ∧ lookup k col = some v ∧
      tyFlags v = tyFlags (JVal.vint 0) := by
  cases hg : lookup g cfg with
  | none => simp [config.GroupFloat64, hg] at h
  | some gv =>
    cases gv with
    | vobj col =>
      have h2 : (colFloat64 k col).2 = true := by
        simpa [config.GroupFloat64, hg] using h
      obtain ⟨v, hv, hty, _⟩ := colFloat64_ok_shape k col h2
      exact ⟨col, v, rfl, hv, hty⟩
    | vnull => simp [config.GroupFloat64, hg] at h
    | vbool b => simp [config.GroupFloat64, hg] at h
    | vint n => simp [config.GroupFloat64, hg] at h
    | vfloat q => simp [config.GroupFloat64, hg] at h
    | vstr s => simp [config.GroupFloat64, hg] at h
    | varr a => simp [config.GroupFloat64, hg] at h

/-- C1: every typed mutation of config.go writes its value exactly when a
value of the same requested type already reads successfully at the target
(guard false leaves the whole document unchanged, guard true stores the
new raw value there); a mutation never creates a root or group key (the
key lists are preserved), leaves every untouched location unchanged, and
never changes the set of typed readers that succeed at the target. -/
theorem C1_guarded_mutation (mu : Mut) (cfg : Doc) :
    (mu.guard cfg = false → mu.apply cfg = cfg) ∧
    (mu.guard cfg = true → mu.read (mu.apply cfg) = some mu.newVal) ∧
    keys (mu.apply cfg) = keys cfg ∧
    (∀ k', k' ≠ mu.rootKey → lookup k' (mu.apply cfg) = lookup k' cfg) ∧
    (∀ g' col, lookup g' cfg = some (JVal.vobj col) →
      ∃ col2, lookup g' (mu.apply cfg) = some (JVal.vobj col2) ∧
        keys col2 = keys col) ∧
    (∀ g' k', mu.misses g' k' →
      config.GroupVal g' k' (mu.apply cfg) = config.GroupVal g' k' cfg) ∧
    mu.flags (mu.apply cfg) = mu.flags cfg := by
  cases mu with
  | mInt k v =>
    have h := rootSetFull k (JVal.vint v) cfg (config.SetInt k v cfg)
      ((config.Int k cfg).2) rfl (fun col hc => JVal.noConfusion hc)
      (fun hb => colInt_ok_shape k cfg hb)
    exact ⟨h.1, h.2.1, h.2.2.1, h.2.2.2.1, h.2.2.2.2.1,
      fun g' k' _ => h.2.2.2.2.2.1 g' k', h.2.2.2.2.2.2⟩
  | mFloat64 k v =>
    have h := rootSetFull k (JVal.vfloat v) cfg (config.SetFloat64 k v cfg)
      ((config.Float64 k cfg).2) rfl (fun col hc => JVal.noConfusion hc)
      (fun hb => colFloat64_ok_shape k cfg hb)
    exact ⟨h.1, h.2.1, h.2.2.1, h.2.2.2.1, h.2.2.2.2.1,
      fun g' k' _ => h.2.2.2.2.2.1 g' k', h.2.2.2.2.2.2⟩
  | mBool k v =>
    have h := rootSetFull k (JVal.vbool v) cfg (config.SetBool k v cfg)
      ((config.Bool k cfg).2) rfl (fun col hc => JVal.noConfusion hc)
      (fun hb => colBool_ok_shape k cfg hb)
    exact ⟨h.1, h.2.1, h.2.2.1, h.2.2.2.1, h.2.2.2.2.1,
      fun g' k' _ => h.2.2.2.2.2.1 g' k', h.2.2.2.2.2.2⟩
  | mString k v =>
    have h := rootSetFull k (JVal.vstr v) cfg (config.SetString k v cfg)
      ((config.String k cfg).2) rfl (fun col hc => JVal.noConfusion hc)
      (fun hb => colString_ok_shape k cfg hb)
    exact ⟨h.1, h.2.1, h.2.2.1, h.2.2.2.1, h.2.2.2.2.1,
      fun g' k' _ => h.2.2.2.2.2.1 g' k', h.2.2.2.2.2.2⟩
  | mGroupInt g k v =>
    have h := groupSetFull g k (JVal.vint v) cfg (config.SetGroupInt g k v cfg)
      ((config.GroupInt g k cfg).2) rfl
      (fun hb => groupInt_ok_shape g k cfg hb)
    exact ⟨h.1, h.2.1, h.2.2.1, h.2.2.2.1, h.2.2.2.2.1,
      h.2.2.2.2.2.1, h.2.2.2.2.2.2⟩
  | mGroupFloat64 g k v =>
    have h := groupSetFull g k (JVal.vfloat v) cfg
      (config.SetGroupFloat64 g k v cfg) ((config.GroupFloat64 g k cfg).2) rfl
      (fun hb => groupFloat64_ok_shape g k cfg hb)
    exact ⟨h.1, h.2.1, h.2.2.1, h.2.2.2.1, h.2.2.2.2.1,
      h.2.2.2.2.2.1, h.2.2.2.2.2.2⟩
  | mGroupBool g k v =>
    have h := groupSetFull g k (JVal.vbool v) cfg
      (config.SetGroupBool g k v cfg) ((config.GroupBool g k cfg).2) rfl
      (fun hb => groupBool_ok_shape g k cfg hb)
    exact ⟨h.1, h.2.1, h.2.2.1, h.2.2.2.1, h.2.2.2.2.1,
      h.2.2.2.2.2.1, h.2.2.2.2.2.2⟩
  | mGroupString g k v =>
    have h := groupSetFull g k (JVal.vstr v) cfg
      (config.SetGroupString g k v cfg) ((config.GroupString g k cfg).2) rfl
      (fun hb => groupString_ok_shape g k cfg hb)
    exact ⟨h.1, h.2.1, h.2.2.1, h.2.2.2.1, h.2.2.2.2.1,
      h.2.2.2.2.2.1, h.2.2.2.2.2.2⟩

theorem C1_guarded_mutation_witness :
    Mut.apply (Mut.mString "newkey" "x") [("host", JVal.vstr "google.com")] =
      [("host", JVal.vstr "google.com")] ∧
    Mut.read (Mut.mString "host" "x")
      (Mut.apply (Mut.mString "host" "x")
        [("host", JVal.vstr "google.com")]) = some (JVal.vstr "x") := by
  constructor
  · exact (C1_guarded_mutation (Mut.mString "newkey" "x")
      [("host", JVal.vstr "google.com")]).1 rfl
  · exact (C1_guarded_mutation (Mut.mString "host" "x")
      [("host", JVal.vstr "google.com")]).2.1 rfl

/-- C2: a key holding a JSON number (a Go float64) reads through Int as the
number truncated toward zero with a true flag (goTrunc is floor for
nonnegative numbers and ceiling for nonpositive ones, hence truncation
toward zero) and through Float64 as the exact number with a true flag; a
whole number, stored either as an integral JSON number or as a Go int
written by SetInt, is readable by both accessors without loss. -/
theorem C2_numeric_coercion (key : GoString) (cfg : Doc) :
    (∀ q : Rat, lookup key cfg = some (JVal.vfloat q) →
      config.Int key cfg = (goTrunc q, true) ∧
      config.Float64 key cfg = (q, true)) ∧
    (∀ q : Rat, 0 ≤ q → goTrunc q = ⌊q⌋) ∧
    (∀ q : Rat, q ≤ 0 → goTrunc q = ⌈q⌉) ∧
    (∀ q : Rat, lookup key cfg = some (JVal.vfloat q) → q.den = 1 →
      config.Int key cfg = (q.num, true)) ∧
    (∀ n : GoInt, lookup key cfg = some (JVal.vint n) →
      config.Int key cfg = (n, true) ∧
      config.Float64 key cfg = ((n : Rat), true)) ∧
    (∀ n : GoInt, (config.Int key cfg).2 = true →
      config.Int key (config.SetInt key n cfg) = (n, true) ∧
      config.Float64 key (config.SetInt key n cfg) = ((n : Rat), true)) := by
  refine ⟨?_, ?_, ?_, ?_, ?_, ?_⟩
  · intro q h
    exact ⟨by simp [config.Int, colInt, h],
      by simp [config.Float64, colFloat64, h]⟩
  · intro q h
    rw [goTrunc, Rat.floor_def]
    exact Int.tdiv_eq_ediv (Rat.num_nonneg.mpr h) (Int.natCast_nonneg _)
  · intro q h
    have hn : 0 ≤ -q.num := by
      have := Rat.num_nonpos.mpr h
      omega
    have hceil : (⌈q⌉ : Int) = -⌊-q⌋ := rfl
    rw [goTrunc, hceil, Rat.floor_def, Rat.num_neg_eq_neg_num,
      Rat.den_neg_eq_den, ← Int.tdiv_eq_ediv hn (Int.natCast_nonneg _),
      Int.neg_tdiv, neg_neg]
  · intro q h hden
    have ht : goTrunc q = q.num := by
      rw [goTrunc, hden]
      simp [Int.tdiv_one]
    simp [config.Int, colInt, h, ht]
  · intro n h
    exact ⟨by simp [config.Int, colInt, h],
      by simp [config.Float64, colFloat64, h]⟩
  · intro n h
    have hset : config.SetInt key n cfg =
        mapAssign key (JVal.vint n) cfg := by
      simp [config.SetInt, h]
    have hl := lookup_mapAssign_self key (JVal.vint n) cfg
    rw [hset] at *
    exact ⟨by simp [config.Int, colInt, hl],
      by simp [config.Float64, colFloat64, hl]⟩

theorem C2_numeric_coercion_witness :
    config.Int "pi" [("pi", JVal.vfloat ratThreePointSeven)] = (3, true) ∧
    config.Float64 "pi" [("pi", JVal.vfloat ratThreePointSeven)] =
      (ratThreePointSeven, true) := by
  have h := (C2_numeric_coercion "pi"
    [("pi", JVal.vfloat ratThreePointSeven)]).1 ratThreePointSeven rfl
  exact ⟨h.1.trans (by decide), h.2⟩

/-- C3 counterexample: reading a missing key through the Int and Float64
accessors returns -1 with a false flag, not the zero value of the
requested type that the claim states. -/
theorem C3_zero_default_cex :
    config.Int "host" [] = (-1, false) ∧
    config.Int "host" [] ≠ (0, false) ∧
    config.Float64 "host" [] = (-1, false) ∧
    config.Float64 "host" [] ≠ (0, false) := by
  refine ⟨rfl, by decide, rfl, by decide⟩

/-- C3 (amended): every typed accessor returns a fixed default value with a
false found flag when the key is not found; the default is the zero value
for Bool, String and Val, but -1 for Int and Float64 at the root and for a
key missing inside an existing group, and 0 for GroupInt and GroupFloat64
when the group itself is missing. -/
theorem C3_not_found_defaults (key : GoString) (cfg : Doc) :
    (lookup key cfg = none →
      config.Bool key cfg = (false, false) ∧
      config.String key cfg = ("", false) ∧
      config.Int key cfg = (-1, false) ∧
      config.Float64 key cfg = (-1, false) ∧
      config.Val key cfg = (none, false)) ∧
    (∀ g, lookup g cfg = none →
      config.GroupBool g key cfg = (false, false) ∧
      config.GroupString g key cfg = ("", false) ∧
      config.GroupInt g key cfg = (0, false) ∧
      config.GroupFloat64 g key cfg = (0, false) ∧
      config.GroupVal g key cfg = (none, false)) ∧
    (∀ g col, lookup g cfg = some (JVal.vobj col) → lookup key col = none →
      config.GroupBool g key cfg = (false, false) ∧
      config.GroupString g key cfg = ("", false) ∧
      config.GroupInt g key cfg = (-1, false) ∧
      config.GroupFloat64 g key cfg = (-1, false) ∧
      config.GroupVal g key cfg = (none, false)) := by
  refine ⟨?_, ?_, ?_⟩
  · intro h
    exact ⟨by simp [config.Bool, colBool, h],
      by simp [config.String, colString, h],
      by simp [config.Int, colInt, h],
      by simp [config.Float64, colFloat64, h],
      by simp [config.Val, colVal, h]⟩
  · intro g h
    exact ⟨by simp [config.GroupBool, h],
      by simp [config.GroupString, h],
      by simp [config.GroupInt, h],
      by simp [config.GroupFloat64, h],
      by simp [config.GroupVal, h]⟩
  · intro g col hg hk
    exact ⟨by simp [config.GroupBool, hg, colBool, hk],
      by simp [config.GroupString, hg, colString, hk],
      by simp [config.GroupInt, hg, colInt, hk],
      by simp [config.GroupFloat64, hg, colFloat64, hk],
      by simp [config.GroupVal, hg, colVal, hk]⟩

theorem C3_not_found_defaults_witness :
    config.Int "k" [("g", JVal.vobj [])] = (-1, false) ∧
    config.GroupInt "g" "k" [("g", JVal.vobj [])] = (-1, false) ∧
    config.GroupInt "nope" "k" [("g", JVal.vobj [])] = (0, false) := by
  refine ⟨((C3_not_found_defaults "k" [("g", JVal.vobj [])]).1 rfl).2.2.1,
    ((C3_not_found_defaults "k" [("g", JVal.vobj [])]).2.2 "g" [] rfl
      rfl).2.2.1,
    ((C3_not_found_defaults "k" [("g", JVal.vobj [])]).2.1 "nope" rfl).2.2.1⟩

theorem group_nonobj_defaults (g k : GoString) (cfg : Doc) (v : JVal)
    (h : lookup g cfg = some v) (hv : ∀ col, v ≠ JVal.vobj col) :
    config.GroupBool g k cfg = (false, false) ∧
    config.GroupString g k cfg = ("", false) ∧
    config.GroupInt g k cfg = (0, false) ∧
    config.GroupFloat64 g k cfg = (0, false) ∧
    config.GroupVal g k cfg = (none, false) := by
  cases v
  case vobj col => exact absurd rfl (hv col)
  all_goals
    exact ⟨by simp [config.GroupBool, h], by simp [config.GroupString, h],
      by simp [config.GroupInt, h], by simp [config.GroupFloat64, h],
      by simp [config.GroupVal, h]⟩

/-- C4 counterexample: the raw Val accessor distinguishes a key present
with a null value from an absent key: the former reports found. -/
theorem C4_null_val_cex :
    config.Val "k" [("k", JVal.vnull)] = (some JVal.vnull, true) ∧
    config.Val "k" [] = (none, false) ∧
    (config.Val "k" [("k", JVal.vnull)]).2 ≠ (config.Val "k" []).2 := by
  exact ⟨rfl, rfl, by decide⟩

/-- C4 (amended): for the four typed accessors, root and group, a key
present with a null value or a value of the wrong type reports the same
default-and-false result as an absent key, and a group accessor applied to
a root key whose value is not a mapping reports not found; the raw Val
accessor is the exception: it reports any present value, null included,
with a true flag. -/
theorem C4_wrong_type_not_found (key : GoString) (cfg : Doc) :
    (∀ v, lookup key cfg = some v →
      ((∀ b, v ≠ JVal.vbool b) → config.Bool key cfg = (false, false)) ∧
      ((∀ s, v ≠ JVal.vstr s) → config.String key cfg = ("", false)) ∧
      ((∀ n, v ≠ JVal.vint n) → (∀ q, v ≠ JVal.vfloat q) →
        config.Int key cfg = (-1, false)) ∧
      ((∀ n, v ≠ JVal.vint n) → (∀ q, v ≠ JVal.vfloat q) →
        config.Float64 key cfg = (-1, false)) ∧
      config.Val key cfg = (some v, true)) ∧
    (∀ g v, lookup g cfg = some v → (∀ col, v ≠ JVal.vobj col) →
      config.GroupBool g key cfg = (false, false) ∧
      config.GroupString g key cfg = ("", false) ∧
      config.GroupInt g key cfg = (0, false) ∧
      config.GroupFloat64 g key cfg = (0, false) ∧
      config.GroupVal g key cfg = (none, false)) := by
  constructor
  · intro v h
    refine ⟨?_, ?_, ?_, ?_, by simp [config.Val, colVal, h]⟩
    · intro hb
      cases v
      case vbool b => exact absurd rfl (hb b)
      all_goals simp [config.Bool, colBool, h]
    · intro hs
      cases v
      case vstr s => exact absurd rfl (hs s)
      all_goals simp [config.String, colString, h]
    · intro hn hq
      cases v
      case vint n => exact absurd rfl (hn n)
      case vfloat q => exact absurd rfl (hq q)
      all_goals simp [config.Int, colInt, h]
    · intro hn hq
      cases v
      case vint n => exact absurd rfl (hn n)
      case vfloat q => exact absurd rfl (hq q)
      all_goals simp [config.Float64, colFloat64, h]
  · intro g v h hobj
    exact group_nonobj_defaults g key cfg v h hobj

theorem C4_wrong_type_not_found_witness :
    config.GroupString "links" "google" [("links", JVal.vstr "notAMap")] =
      ("", false) ∧
    config.Val "k" [("k", JVal.vnull)] = (some JVal.vnull, true) ∧
    config.Bool "k" [("k", JVal.vnull)] = (false, false) := by
  refine ⟨?_, ?_, ?_⟩
  · exact ((C4_wrong_type_not_found "google"
      [("links", JVal.vstr "notAMap")]).2 "links" (JVal.vstr "notAMap") rfl
      (fun col hc => JVal.noConfusion hc)).2.1
  · exact ((C4_wrong_type_not_found "k" [("k", JVal.vnull)]).1 JVal.vnull
      rfl).2.2.2.2
  · exact ((C4_wrong_type_not_found "k" [("k", JVal.vnull)]).1 JVal.vnull
      rfl).1 (fun b hb => JVal.noConfusion hb)

/-- C5 counterexample: a successfully parsed document whose top level is a
JSON array makes ReadFrom hit the unchecked type assertion and panic, and
likewise Load on a parsed non-object; that is a failure mode other than an
ordinary error return value. -/
theorem C5_nonobject_panics_cex :
    ReadFrom (some (JVal.varr [])) = GoResult.panicked ∧
    (GoResult.panicked : GoResult Doc) ≠ GoResult.err ∧
    config.Load (FileRead.parsed (JVal.vstr "x")) ⟨false, []⟩ =
      LoadResult.panicked := by
  exact ⟨rfl, fun h => GoResult.noConfusion h, rfl⟩

/-- C5 (amended): invalid JSON makes Load and ReadFrom return an ordinary
error value, and a parsed object succeeds; but a valid JSON document whose
top-level value is not an object is not rejected with an error: the
unchecked type assertion panics. -/
theorem C5_parse_failure_modes :
    ReadFrom none = (GoResult.err : GoResult Doc) ∧
    (∀ m, ReadFrom (some (JVal.vobj m)) = GoResult.ok m) ∧
    (∀ xs, ReadFrom (some (JVal.varr xs)) = GoResult.panicked) ∧
    (∀ s, ReadFrom (some (JVal.vstr s)) = GoResult.panicked) ∧
    (∀ n, ReadFrom (some (JVal.vint n)) = GoResult.panicked) ∧
    (∀ q, ReadFrom (some (JVal.vfloat q)) = GoResult.panicked) ∧
    (∀ b, ReadFrom (some (JVal.vbool b)) = GoResult.panicked) ∧
    ReadFrom (some JVal.vnull) = GoResult.panicked ∧
    (∀ d, config.Load FileRead.noFile ⟨false, d⟩ =
      LoadResult.err ⟨false, d⟩) ∧
    (∀ d, config.Load FileRead.badJson ⟨false, d⟩ =
      LoadResult.err ⟨false, d⟩) ∧
    (∀ d m, config.Load (FileRead.parsed (JVal.vobj m)) ⟨false, d⟩ =
      LoadResult.ok ⟨true, m⟩) ∧
    (∀ d xs, config.Load (FileRead.parsed (JVal.varr xs)) ⟨false, d⟩ =
      LoadResult.panicked) ∧
    (∀ d s, config.Load (FileRead.parsed (JVal.vstr s)) ⟨false, d⟩ =
      LoadResult.panicked) := by
  exact ⟨rfl, fun m => rfl, fun xs => rfl, fun s => rfl, fun n => rfl,
    fun q => rfl, fun b => rfl, rfl, fun d => rfl, fun d => rfl,
    fun d m => rfl, fun d xs => rfl, fun d s => rfl⟩

/-- C6 (amended): every required variant has the lookup semantics of its
plain accessor, returning its value when found and a fatal termination
carrying a message naming the missing key when not; the group variants of
the Config-struct version also name the group in the message, but the
group variants of the required struct in config.go name only the key. -/
theorem C6_required_accessors (key group : GoString) (cfg : Doc)
    (c : Config) :
    (((config.Bool key cfg).2 = true →
      required.Bool key cfg = ReqResult.ok (config.Bool key cfg).1) ∧
     ((config.Bool key cfg).2 = false → ∃ pre post,
      required.Bool key cfg = ReqResult.fatal (pre ++ key ++ post))) ∧
    (((config.String key cfg).2 = true →
      required.String key cfg = ReqResult.ok (config.String key cfg).1) ∧
     ((config.String key cfg).2 = false → ∃ pre post,
      required.String key cfg = ReqResult.fatal (pre ++ key ++ post))) ∧
    (((config.Int key cfg).2 = true →
      required.Int key cfg = ReqResult.ok (config.Int key cfg).1) ∧
     ((config.Int key cfg).2 = false → ∃ pre post,
      required.Int key cfg = ReqResult.fatal (pre ++ key ++ post))) ∧
    (((config.Float64 key cfg).2 = true →
      required.Float64 key cfg = ReqResult.ok (config.Float64 key cfg).1) ∧
     ((config.Float64 key cfg).2 = false → ∃ pre post,
      required.Float64 key cfg = ReqResult.fatal (pre ++ key ++ post))) ∧
    (((config.Val key cfg).2 = true →
      required.Val key cfg = ReqResult.ok (config.Val key cfg).1) ∧
     ((config.Val key cfg).2 = false → ∃ pre post,
      required.Val key cfg = ReqResult.fatal (pre ++ key ++ post))) ∧
    (((config.GroupBool group key cfg).2 = true →
      required.GroupBool group key cfg =
        ReqResult.ok (config.GroupBool group key cfg).1) ∧
     ((config.GroupBool group key cfg).2 = false → ∃ pre post,
      required.GroupBool group key cfg = ReqResult.fatal (pre ++ key ++ post))) ∧
    (((config.GroupString group key cfg).2 = true →
      required.GroupString group key cfg =
        ReqResult.ok (config.GroupString group key cfg).1) ∧
     ((config.GroupString group key cfg).2 = false → ∃ pre post,
      required.GroupString group key cfg = ReqResult.fatal (pre ++ key ++ post))) ∧
    (((config.GroupInt group key cfg).2 = true →
      required.GroupInt group key cfg =
        ReqResult.ok (config.GroupInt group key cfg).1) ∧
     ((config.GroupInt group key cfg).2 = false → ∃ pre post,
      required.GroupInt group key cfg = ReqResult.fatal (pre ++ key ++ post))) ∧
    (((config.GroupFloat64 group key cfg).2 = true →
      required.GroupFloat64 group key cfg =
        ReqResult.ok (config.GroupFloat64 group key cfg).1) ∧
     ((config.GroupFloat64 group key cfg).2 = false → ∃ pre post,
      required.GroupFloat64 group key cfg = ReqResult.fatal (pre ++ key ++ post))) ∧
    (((config.GroupVal group key cfg).2 = true →
      required.GroupVal group key cfg =
        ReqResult.ok (config.GroupVal group key cfg).1) ∧
     ((config.GroupVal group key cfg).2 = false → ∃ pre post,
      required.GroupVal group key cfg = ReqResult.fatal (pre ++ key ++ post))) ∧
    (((c.Bool key).2 = true →
      c.RequiredBool key = ReqResult.ok (c.Bool key).1) ∧
     ((c.Bool key).2 = false → ∃ pre post,
      c.RequiredBool key = ReqResult.fatal (pre ++ key ++ post))) ∧
    (((c.String key).2 = true →
      c.RequiredString key = ReqResult.ok (c.String key).1) ∧
     ((c.String key).2 = false → ∃ pre post,
      c.RequiredString key = ReqResult.fatal (pre ++ key ++ post))) ∧
    (((c.Int key).2 = true →
      c.RequiredInt key = ReqResult.ok (c.Int key).1) ∧
     ((c.Int key).2 = false → ∃ pre post,
      c.RequiredInt key = ReqResult.fatal (pre ++ key ++ post))) ∧
    (((c.Float64 key).2 = true →
      c.RequiredFloat64 key = ReqResult.ok (c.Float64 key).1) ∧
     ((c.Float64 key).2 = false → ∃ pre post,
      c.RequiredFloat64 key = ReqResult.fatal (pre ++ key ++ post))) ∧
    (((c.Val key).2 = true →
      c.RequiredVal key = ReqResult.ok (c.Val key).1) ∧
     ((c.Val key).2 = false → ∃ pre post,
      c.RequiredVal key = ReqResult.fatal (pre ++ key ++ post))) ∧
    (((c.GroupBool group key).2 = true →
      c.RequiredGroupBool group key = ReqResult.ok (c.GroupBool group key).1) ∧
     ((c.GroupBool group key).2 = false → ∃ pre mid post,
      c.RequiredGroupBool group key =
        ReqResult.fatal (pre ++ group ++ mid ++ key ++ post))) ∧
    (((c.GroupString group key).2 = true →
      c.RequiredGroupString group key = ReqResult.ok (c.GroupString group key).1) ∧
     ((c.GroupString group key).2 = false → ∃ pre mid post,
      c.RequiredGroupString group key =
        ReqResult.fatal (pre ++ group ++ mid ++ key ++ post))) ∧
    (((c.GroupInt group key).2 = true →
      c.RequiredGroupInt group key = ReqResult.ok (c.GroupInt group key).1) ∧
     ((c.GroupInt group key).2 = false → ∃ pre mid post,
      c.RequiredGroupInt group key =
        ReqResult.fatal (pre ++ group ++ mid ++ key ++ post))) ∧
    (((c.GroupFloat64 group key).2 = true →
      c.RequiredGroupFloat64 group key = ReqResult.ok (c.GroupFloat64 group key).1) ∧
     ((c.GroupFloat64 group key).2 = false → ∃ pre mid post,
      c.RequiredGroupFloat64 group key =
        ReqResult.fatal (pre ++ group ++ mid ++ key ++ post))) ∧
    (((c.GroupVal group key).2 = true →
      c.RequiredGroupVal group key = ReqResult.ok (c.GroupVal group key).1) ∧
     ((c.GroupVal group key).2 = false → ∃ pre mid post,
      c.RequiredGroupVal group key =
        ReqResult.fatal (pre ++ group ++ mid ++ key ++ post))) := by
  exact ⟨
    ⟨fun h => by simp [required.Bool, h],
     fun h => ⟨"failed to retrieve " ++ sQuote, sQuote ++ " bool from config",
       by simp [required.Bool, h, String.append_assoc]⟩⟩,
    ⟨fun h => by simp [required.String, h],
     fun h => ⟨"failed to retrieve " ++ sQuote, sQuote ++ " string from config",
       by simp [required.String, h, String.append_assoc]⟩⟩,
    ⟨fun h => by simp [required.Int, h],
     fun h => ⟨"failed to retrieve " ++ sQuote, sQuote ++ " int from config",
       by simp [required.Int, h, String.append_assoc]⟩⟩,
    ⟨fun h => by simp [required.Float64, h],
     fun h => ⟨"failed to retrieve " ++ sQuote, sQuote ++ " float64 from config",
       by simp [required.Float64, h, String.append_assoc]⟩⟩,
    ⟨fun h => by simp [required.Val, h],
     fun h => ⟨"failed to retrieve " ++ sQuote, sQuote ++ " value from config",
       by simp [required.Val, h, String.append_assoc]⟩⟩,
    ⟨fun h => by simp [required.GroupBool, h],
     fun h => ⟨"failed to retrieve " ++ sQuote, sQuote ++ " group bool from config",
       by simp [required.GroupBool, h, String.append_assoc]⟩⟩,
    ⟨fun h => by simp [required.GroupString, h],
     fun h => ⟨"failed to retrieve " ++ sQuote, sQuote ++ " group string from config",
       by simp [required.GroupString, h, String.append_assoc]⟩⟩,
    ⟨fun h => by simp [required.GroupInt, h],
     fun h => ⟨"failed to retrieve " ++ sQuote, sQuote ++ " group int from config",
       by simp [required.GroupInt, h, String.append_assoc]⟩⟩,
    ⟨fun h => by simp [required.GroupFloat64, h],
     fun h => ⟨"failed to retrieve " ++ sQuote, sQuote ++ " group int from config",
       by simp [required.GroupFloat64, h, String.append_assoc]⟩⟩,
    ⟨fun h => by simp [required.GroupVal, h],
     fun h => ⟨"failed to retrieve " ++ sQuote, sQuote ++ " group value from config",
       by simp [required.GroupVal, h, String.append_assoc]⟩⟩,
    ⟨fun h => by simp [Config.RequiredBool, h],
     fun h => ⟨"failed to retrieve " ++ sQuote, sQuote ++ " bool from config",
       by simp [Config.RequiredBool, h, String.append_assoc]⟩⟩,
    ⟨fun h => by simp [Config.RequiredString, h],
     fun h => ⟨"failed to retrieve " ++ sQuote, sQuote ++ " string from config",
       by simp [Config.RequiredString, h, String.append_assoc]⟩⟩,
    ⟨fun h => by simp [Config.RequiredInt, h],
     fun h => ⟨"failed to retrieve " ++ sQuote, sQuote ++ " int from config",
       by simp [Config.RequiredInt, h, String.append_assoc]⟩⟩,
    ⟨fun h => by simp [Config.RequiredFloat64, h],
     fun h => ⟨"failed to retrieve " ++ sQuote, sQuote ++ " float64 from config",
       by simp [Config.RequiredFloat64, h, String.append_assoc]⟩⟩,
    ⟨fun h => by simp [Config.RequiredVal, h],
     fun h => ⟨"failed to retrieve " ++ sQuote, sQuote ++ " value from config",
       by simp [Config.RequiredVal, h, String.append_assoc]⟩⟩,
    ⟨fun h => by simp [Config.RequiredGroupBool, h],
     fun h => ⟨"failed to retrieve " ++ sQuote, sQuote ++ "." ++ sQuote,
       sQuote ++ " group bool from config",
       by simp [Config.RequiredGroupBool, h, String.append_assoc]⟩⟩,
    ⟨fun h => by simp [Config.RequiredGroupString, h],
     fun h => ⟨"failed to retrieve " ++ sQuote, sQuote ++ "." ++ sQuote,
       sQuote ++ " group string from config",
       by simp [Config.RequiredGroupString, h, String.append_assoc]⟩⟩,
    ⟨fun h => by simp [Config.RequiredGroupInt, h],
     fun h => ⟨"failed to retrieve " ++ sQuote, sQuote ++ "." ++ sQuote,
       sQuote ++ " group int from config",
       by simp [Config.RequiredGroupInt, h, String.append_assoc]⟩⟩,
    ⟨fun h => by simp [Config.RequiredGroupFloat64, h],
     fun h => ⟨"failed to retrieve " ++ sQuote, sQuote ++ "." ++ sQuote,
       sQuote ++ " group int from config",
       by simp [Config.RequiredGroupFloat64, h, String.append_assoc]⟩⟩,
    ⟨fun h => by simp [Config.RequiredGroupVal, h],
     fun h => ⟨"failed to retrieve " ++ sQuote, sQuote ++ "." ++ sQuote,
       sQuote ++ " group value from config",
       by simp [Config.RequiredGroupVal, h, String.append_assoc]⟩⟩⟩

/-- C6 counterexample: the group-required accessors of the required struct
in config.go emit a message that does not identify the missing group: two
lookups differing only in the group produce the identical fatal message,
naming only the key. -/
theorem C6_group_message_cex :
    required.GroupString "links" "google" [] =
      required.GroupString "zzz" "google" [] ∧
    required.GroupString "links" "google" [] =
      ReqResult.fatal ("failed to retrieve " ++ sQuote ++ "google" ++
        sQuote ++ " group string from config") := by
  exact ⟨rfl, rfl⟩

theorem C6_required_accessors_witness :
    required.String "host" [("host", JVal.vstr "google.com")] =
      ReqResult.ok "google.com" ∧
    required.GroupString "links" "google"
      [("links", JVal.vobj [("google", JVal.vstr "https://google.com")])] =
      ReqResult.ok "https://google.com" ∧
    Config.RequiredInt ⟨[("port", JVal.vint 80)]⟩ "port" =
      ReqResult.ok 80 := by
  exact ⟨(C6_required_accessors "host" "g"
      [("host", JVal.vstr "google.com")] ⟨[]⟩).2.1.1 rfl,
    (C6_required_accessors "google" "links"
      [("links", JVal.vobj [("google", JVal.vstr "https://google.com")])]
      ⟨[]⟩).2.2.2.2.2.2.1.1 rfl,
    (C6_required_accessors "port" "g" []
      ⟨[("port", JVal.vint 80)]⟩).2.2.2.2.2.2.2.2.2.2.2.2.1.1 rfl⟩

/-- C7: a Reload that parses an object document installs exactly that
document with the loaded flag set, for every prior state, so any in-memory
mutation in the prior document is discarded and subsequent accessor
results are those of the file contents. -/
theorem C7_reload_replaces (s : CState) (m : Doc) :
    config.Reload (FileRead.parsed (JVal.vobj m)) s =
      LoadResult.ok ⟨true, m⟩ ∧
    (∀ s', config.Reload (FileRead.parsed (JVal.vobj m)) s' =
      config.Reload (FileRead.parsed (JVal.vobj m)) s) ∧
    (∀ key, config.Val key
      ((config.Reload (FileRead.parsed (JVal.vobj m)) s).state s).cfg =
      config.Val key m) := by
  exact ⟨rfl, fun s' => rfl, fun key => rfl⟩

/-- C10: a Reload that fails, because no config file exists or its bytes
are not valid JSON, returns an ordinary error and leaves the previous
document in place (only the loaded flag is cleared), so every plain
accessor afterwards returns exactly what it returned before. -/
theorem C10_failed_reload_preserves (s : CState) :
    config.Reload FileRead.noFile s = LoadResult.err ⟨false, s.cfg⟩ ∧
    config.Reload FileRead.badJson s = LoadResult.err ⟨false, s.cfg⟩ ∧
    (∀ key,
      config.Bool key ((config.Reload FileRead.noFile s).state s).cfg =
        config.Bool key s.cfg ∧
      config.String key ((config.Reload FileRead.noFile s).state s).cfg =
        config.String key s.cfg ∧
      config.Int key ((config.Reload FileRead.noFile s).state s).cfg =
        config.Int key s.cfg ∧
      config.Float64 key ((config.Reload FileRead.badJson s).state s).cfg =
        config.Float64 key s.cfg ∧
      config.Val key ((config.Reload FileRead.badJson s).state s).cfg =
        config.Val key s.cfg) := by
  exact ⟨rfl, rfl, fun key => ⟨rfl, rfl, rfl, rfl, rfl⟩⟩

/-- C8: evaluation showing the Keys bug: the Keys method reads the
package-level default instance instead of its receiver, so an
independently instantiated Config with document keys a reports the global
document's keys; GroupKeys does read its receiver and matches the claim. -/
theorem C8_keys_uses_global :
    Config.Keys ⟨[]⟩ ⟨[("a", JVal.vint 1)]⟩ = [] ∧
    keys [("a", JVal.vint 1)] = ["a"] ∧
    Config.Keys ⟨[("b", JVal.vbool true)]⟩ ⟨[("a", JVal.vint 1)]⟩ = ["b"] ∧
    Config.GroupKeys ⟨[("g", JVal.vobj [("x", JVal.vnull)])]⟩ "g" = ["x"] ∧
    Config.GroupKeys ⟨[("g", JVal.vstr "notAMap")]⟩ "g" = [] ∧
    Config.GroupKeys ⟨[]⟩ "g" = [] := by
  exact ⟨rfl, rfl, rfl, rfl, rfl, rfl⟩
